import Mathlib

set_option allowUnsafeReducibility true
attribute [local semireducible] Rat.mul Rat.inv Rat.add Rat.sub Rat.ofScientific

/-
  Verification development for the SmartStylist outfit generation engine.

  Shallow embedding of `backend/style_scoring.py` and `backend/outfit_generator.py`.
  Python floats are modelled as rationals (all constants in the engine are exact
  decimals), dicts of items as a structure `Item` whose fields carry the values the
  scoring code reads (with the `dict.get` defaults noted at each use site), Python
  strings as Lean `String`, and `None`-able inputs as `Option`.  Mutable state
  (the selection blacklist, the accumulated outfit list) is threaded explicitly.
  Display-only outputs (titles, image blobs), the TTL cache and the optional
  text-enrichment call are external I/O and are not part of the scored results
  modelled here.
-/

namespace SmartStylist

/-! ### String primitives (Python `str.lower`, `str.strip`, `in` substring test) -/

/-- The 26 ASCII upper/lower case pairs, used to model Python `str.lower`
(the engine only ever feeds ASCII keyword tables through it). -/
def lowPairs : List (Char × Char) :=
  [('A','a'), ('B','b'), ('C','c'), ('D','d'), ('E','e'), ('F','f'), ('G','g'),
   ('H','h'), ('I','i'), ('J','j'), ('K','k'), ('L','l'), ('M','m'), ('N','n'),
   ('O','o'), ('P','p'), ('Q','q'), ('R','r'), ('S','s'), ('T','t'), ('U','u'),
   ('V','v'), ('W','w'), ('X','x'), ('Y','y'), ('Z','z')]

/-- Lower-case one character. -/
def lowCh (c : Char) : Char :=
  match lowPairs.find? (fun p => p.1 == c) with
  | some p => p.2
  | none => c

/-- ASCII whitespace recognised by Python `str.strip()`. -/
def isWs (c : Char) : Bool :=
  c == ' ' || c == '\t' || c == '\n' || c == '\r' || c == Char.ofNat 11 || c == Char.ofNat 12

/-- Strip leading and trailing whitespace from a character list. -/
def stripL (l : List Char) : List Char :=
  ((l.dropWhile isWs).reverse.dropWhile isWs).reverse

/-- Python `s.lower()`. -/
def lowerStr (s : String) : String := ⟨s.data.map lowCh⟩

/-- Python `s.strip()`. -/
def stripStr (s : String) : String := ⟨stripL s.data⟩

/-- All suffixes of a character list (including the empty one). -/
def tailsL : List Char → List (List Char)
  | [] => [[]]
  | c :: cs => (c :: cs) :: tailsL cs

/-- Character-list prefix test. -/
def isPre : List Char → List Char → Bool
  | [], _ => true
  | _ :: _, [] => false
  | a :: xs, b :: ys => a == b && isPre xs ys

/-- Python `needle in hay` substring test. -/
def containsSub (needle hay : String) : Bool :=
  (tailsL hay.data).any (isPre needle.data)

/-- Python string `<` (code-point lexicographic). -/
def strLtCore : List Char → List Char → Bool
  | [], [] => false
  | [], _ :: _ => true
  | _ :: _, [] => false
  | a :: xs, b :: ys =>
    if a.toNat < b.toNat then true
    else if b.toNat < a.toNat then false
    else strLtCore xs ys

/-- Python `a < b` on strings. -/
def strLtB (a b : String) : Bool := strLtCore a.data b.data

/-- Mean of a list of rationals: `np.mean(scores) if scores else 0`. -/
def qMean (l : List ℚ) : ℚ := if l.isEmpty then 0 else l.sum / l.length

/-- Python `round(q, 3)` (round half to even), on exact rationals. -/
def round3 (q : ℚ) : ℚ :=
  (if q * 1000 - ⌊q * 1000⌋ < 1/2 then (⌊q * 1000⌋ : ℚ)
   else if 1/2 < q * 1000 - ⌊q * 1000⌋ then ((⌊q * 1000⌋ : ℚ) + 1)
   else if ⌊q * 1000⌋ % 2 = 0 then (⌊q * 1000⌋ : ℚ) else ((⌊q * 1000⌋ : ℚ) + 1)) / 1000

/-! ### `style_scoring.py` — normalizers, weather profile, simple color harmony -/

/-- Alias table of `normalize_color`. -/
def colorAliases : List (String × String) :=
  [("grey","gray"), ("navy","blue"), ("offwhite","white"), ("ivory","white"),
   ("tan","beige"), ("camel","beige"), ("maroon","red")]

/-- `normalize_color` from `style_scoring.py`: falsy input (None / empty string)
maps to "unknown"; otherwise strip, lower, and rewrite via the alias table. -/
def normalize_color (c : Option String) : String :=
  match c with
  | none => "unknown"
  | some s =>
    if s = "" then "unknown"
    else
      match colorAliases.find? (fun p => p.1 == lowerStr (stripStr s)) with
      | some p => p.2
      | none => lowerStr (stripStr s)

def shoeKeys : List String := ["shoe", "sneaker", "heel", "boot", "loafer", "sandals", "footwear"]
def accessoryKeys : List String :=
  ["watch", "belt", "bag", "scarf", "jewelry", "accessory", "hat", "cap", "glasses", "sunglasses"]
def bottomKeys : List String := ["jean", "pant", "trouser", "skirt", "short", "legging", "bottom"]
def outerwearKeys : List String :=
  ["jacket", "coat", "blazer", "veste", "hoodie", "sweater", "cardigan", "outerwear"]
def topKeys : List String :=
  ["shirt", "tee", "t-shirt", "top", "blouse", "sweater", "pull", "tank", "polo"]

/-- The keyword-group dispatch of `normalize_category`, applied to an already
stripped and lowered string; unmatched input passes through unchanged. -/
def classifyCat (c : String) : String :=
  if shoeKeys.any (fun k => containsSub k c) then "shoes"
  else if containsSub "dress" c || containsSub "robe" c || containsSub "gown" c then "dress"
  else if accessoryKeys.any (fun k => containsSub k c) then "accessory"
  else if bottomKeys.any (fun k => containsSub k c) then "bottom"
  else if outerwearKeys.any (fun k => containsSub k c) then "outerwear"
  else if topKeys.any (fun k => containsSub k c) then "top"
  else c

/-- `normalize_category` from `style_scoring.py`. -/
def normalize_category (cat : Option String) : String :=
  match cat with
  | none => "unknown"
  | some s => if s = "" then "unknown" else classifyCat (lowerStr (stripStr s))

/-- `WeatherProfile` (the display label is omitted: the code uses it only for titles). -/
structure WeatherProfile where
  temp_c : ℚ
  condition : String
  bucket : String
deriving DecidableEq

/-- `build_weather_profile`: an unparsable or missing temperature is modelled by
`none` and defaults to 22.0; a falsy condition defaults to "clear". -/
def build_weather_profile (temp : Option ℚ) (cond : Option String) : WeatherProfile :=
  { temp_c := match temp with | some q => q | none => 22
    condition := lowerStr (stripStr (match cond with
      | none => "clear"
      | some c => if c = "" then "clear" else c))
    bucket :=
      match temp with
      | some t => if t ≤ 12 then "cold" else if t ≤ 20 then "mild"
                  else if t ≤ 28 then "warm" else "hot"
      | none => "warm" }

/-- Neutral color set `NEUTRALS` of `style_scoring.py`. -/
def NEUTRALS : List String := ["black", "white", "gray", "beige", "brown", "navy", "blue"]

/-- Pleasant-pair table of the simple `_color_harmony`. -/
def goodPairs : List (String × String) :=
  [("blue","white"), ("blue","beige"), ("red","black"), ("green","white"),
   ("pink","white"), ("purple","black"), ("yellow","blue")]

/-- The simple (cheap) color harmony `_color_harmony` from `style_scoring.py`. -/
def color_harmony (a b : String) : ℚ :=
  if normalize_color (some a) = "unknown" ∨ normalize_color (some b) = "unknown" then 11/20
  else if normalize_color (some a) = normalize_color (some b) then 7/10
  else if NEUTRALS.contains (normalize_color (some a)) || NEUTRALS.contains (normalize_color (some b)) then 17/20
  else if goodPairs.contains (normalize_color (some a), normalize_color (some b))
       || goodPairs.contains (normalize_color (some b), normalize_color (some a)) then 4/5
  else 9/20

/-! ### `outfit_generator.py` — data model -/

inductive OutfitType where
  | CASUAL | BUSINESS_CASUAL | BUSINESS | FORMAL | PARTY | DATE_NIGHT | SPORT | TRAVEL
deriving DecidableEq

inductive OutfitComplexity where
  | SIMPLE | STANDARD | COMPLEX
deriving DecidableEq

structure OutfitConfig where
  min_items : ℕ := 3
  max_items : ℕ := 6
  complexity : OutfitComplexity := .STANDARD
  diversity_weight : ℚ := 7/10
  style_consistency_weight : ℚ := 4/5
  color_harmony_weight : ℚ := 9/10
  weather_adaptation_weight : ℚ := 1
  max_generation_attempts : ℕ := 100
deriving DecidableEq

/-- A wardrobe item record.  `id` is `str(item["_id"])`; the remaining fields are
the keys the scoring code reads (`category`, `color`, `style_tags`, `formality`,
`season`), with a missing key modelled by the `dict.get` default used at each
call site ("" for category/color, "casual" for formality, "all-season" for
season, `[]` for style tags). -/
structure Item where
  id : String
  category : String
  color : String
  style_tags : List String
  formality : String
  season : String
deriving DecidableEq

/-- `GenerationContext` minus its mutable blacklist, which is threaded
explicitly through the selection functions. -/
structure GenerationContext where
  occasion : String
  weather_profile : WeatherProfile
  outfit_type : OutfitType
  config : OutfitConfig
  focus_item : Option Item := none
deriving DecidableEq

/-! ### `ColorHarmony` — the richer color harmony used for selection gating -/

namespace ColorHarmony

def neutral_family : List String :=
  ["black", "white", "gray", "grey", "beige", "brown", "navy", "cream", "khaki"]

def color_families : List (String × List String) :=
  [("neutral", neutral_family),
   ("warm", ["red", "orange", "yellow", "pink", "coral", "peach", "gold"]),
   ("cool", ["blue", "green", "purple", "teal", "turquoise", "lavender", "mint"]),
   ("earth", ["brown", "beige", "olive", "mustard", "rust", "terracotta"]),
   ("jewel", ["emerald", "sapphire", "ruby", "amethyst", "topaz"])]

def complementary_pairs : List (String × String) :=
  [("red","green"), ("orange","blue"), ("yellow","purple"), ("pink","mint"),
   ("blue","orange"), ("green","red"), ("purple","yellow")]

def analogous_ranges : List (String × List String) :=
  [("red", ["pink", "orange", "coral"]),
   ("blue", ["teal", "purple", "navy"]),
   ("green", ["mint", "olive", "teal"]),
   ("purple", ["lavender", "pink", "blue"])]

/-- `ColorHarmony.get_color_family`: first family (in declaration order) whose
set contains the lowered color, else "unknown". -/
def get_color_family (color : String) : String :=
  match color_families.find? (fun p => p.2.contains (lowerStr color)) with
  | some p => p.1
  | none => "unknown"

/-- `ColorHarmony.calculate_harmony_score`: the richer variant used by the
selector's compatibility gate and by aggregate outfit scoring. -/
def calculate_harmony_score (color1 color2 : String) : ℚ :=
  if color1 = "unknown" ∨ color2 = "unknown" then 3/5
  else if lowerStr color1 = lowerStr color2 then 4/5
  else if neutral_family.contains (lowerStr color1) && neutral_family.contains (lowerStr color2) then 9/10
  else if neutral_family.contains (lowerStr color1) || neutral_family.contains (lowerStr color2) then 17/20
  else if (complementary_pairs.lookup (lowerStr color1)) = some (lowerStr color2) then 19/20
  else if ((analogous_ranges.lookup (lowerStr color1)).getD []).contains (lowerStr color2) then 17/20
  else if get_color_family (lowerStr color1) = get_color_family (lowerStr color2)
          ∧ get_color_family (lowerStr color1) ≠ "unknown" then 4/5
  else if (get_color_family (lowerStr color1) = "warm" ∨ get_color_family (lowerStr color1) = "earth")
          ∧ (get_color_family (lowerStr color2) = "cool" ∨ get_color_family (lowerStr color2) = "jewel") then 1/2
  else 7/10

end ColorHarmony

/-! ### `StyleCompatibility` -/

namespace StyleCompatibility

def style_categories : List (String × List String) :=
  [("minimal", ["simple", "clean", "basic", "neutral"]),
   ("streetwear", ["urban", "casual", "edgy", "sporty"]),
   ("classic", ["timeless", "elegant", "traditional", "sophisticated"]),
   ("bohemian", ["boho", "flowy", "patterned", "natural"]),
   ("glam", ["glamorous", "sparkly", "luxurious", "evening"]),
   ("sporty", ["athletic", "active", "comfortable", "performance"]),
   ("business", ["professional", "tailored", "sharp", "formal"])]

/-- `StyleCompatibility.get_style_category`: Python `max` over the insertion-ordered
score dict returns the first category attaining the maximal keyword overlap. -/
def get_style_category (tags : List String) : String :=
  match style_categories.map
      (fun p => (p.1, (p.2.filter (fun k => (tags.map lowerStr).contains k)).length)) with
  | [] => "minimal"
  | x :: xs => (xs.foldl (fun best p => if best.2 < p.2 then p else best) x).1

def compatible_pairs : List (String × String) :=
  [("minimal","classic"), ("minimal","business"), ("classic","business"),
   ("streetwear","sporty"), ("bohemian","glam")]

def clashing_pairs : List (String × String) :=
  [("sporty","business"), ("streetwear","glam"), ("bohemian","business")]

/-- `StyleCompatibility.calculate_style_compatibility`. -/
def calculate_style_compatibility (item1_tags item2_tags : List String) : ℚ :=
  if item1_tags.isEmpty || item2_tags.isEmpty then 7/10
  else if get_style_category item1_tags = get_style_category item2_tags then 1
  else if compatible_pairs.contains (get_style_category item1_tags, get_style_category item2_tags)
       || compatible_pairs.contains (get_style_category item2_tags, get_style_category item1_tags) then 4/5
  else if get_style_category item1_tags = "minimal" ∨ get_style_category item1_tags = "classic"
          ∨ get_style_category item2_tags = "minimal" ∨ get_style_category item2_tags = "classic" then 3/4
  else if clashing_pairs.contains (get_style_category item1_tags, get_style_category item2_tags)
       || clashing_pairs.contains (get_style_category item2_tags, get_style_category item1_tags) then 1/2
  else 7/10

end StyleCompatibility

/-! ### Generator internals -/

/-- `_determine_outfit_type`: keyword matching on the lowered occasion string. -/
def determine_outfit_type (occasion : String) : OutfitType :=
  if ["wedding","gala","formal","ceremony"].any (fun w => containsSub w (lowerStr occasion)) then .FORMAL
  else if ["meeting","office","work","business","interview"].any (fun w => containsSub w (lowerStr occasion)) then .BUSINESS
  else if ["date","romantic","anniversary"].any (fun w => containsSub w (lowerStr occasion)) then .DATE_NIGHT
  else if ["party","celebration","festival"].any (fun w => containsSub w (lowerStr occasion)) then .PARTY
  else if ["sport","gym","workout","athletic"].any (fun w => containsSub w (lowerStr occasion)) then .SPORT
  else if ["travel","airport","journey"].any (fun w => containsSub w (lowerStr occasion)) then .TRAVEL
  else if ["casual","relaxed","everyday"].any (fun w => containsSub w (lowerStr occasion)) then .CASUAL
  else .BUSINESS_CASUAL

/-- `_get_outfit_config`: per-type constants. -/
def get_outfit_config : OutfitType → OutfitConfig
  | .CASUAL => { min_items := 2, max_items := 4, complexity := .SIMPLE }
  | .BUSINESS_CASUAL => { min_items := 3, max_items := 5, complexity := .STANDARD }
  | .BUSINESS => { min_items := 3, max_items := 5, complexity := .STANDARD,
                   style_consistency_weight := 9/10 }
  | .FORMAL => { min_items := 3, max_items := 6, complexity := .COMPLEX,
                 style_consistency_weight := 19/20 }
  | .PARTY => { min_items := 3, max_items := 6, complexity := .COMPLEX,
                diversity_weight := 4/5 }
  | .DATE_NIGHT => { min_items := 3, max_items := 5, complexity := .STANDARD,
                     style_consistency_weight := 17/20 }
  | .SPORT => { min_items := 2, max_items := 4, complexity := .SIMPLE,
                weather_adaptation_weight := 6/5 }
  | .TRAVEL => { min_items := 2, max_items := 4, complexity := .SIMPLE,
                 weather_adaptation_weight := 11/10 }

/-- `_calculate_item_suitability`: starts at 1.0 and multiplies in the four
adjustment groups, in source order (formality and season groups are if/elif
chains, rendered as nested conditionals). -/
def calculate_item_suitability (item : Item) (ctx : GenerationContext) : ℚ :=
  1
  * (if normalize_category (some item.category) = "top"
        ∨ normalize_category (some item.category) = "dress" then 11/10 else 1)
  * (if ctx.outfit_type = OutfitType.FORMAL ∧ lowerStr item.formality ≠ "formal" then 7/10
     else if ctx.outfit_type = OutfitType.BUSINESS
             ∧ ¬(lowerStr item.formality = "business" ∨ lowerStr item.formality = "business-casual")
          then 4/5
     else 1)
  * (if lowerStr item.season ≠ "all-season" ∧ ctx.weather_profile.temp_c < 15
        ∧ ¬(lowerStr item.season = "winter" ∨ lowerStr item.season = "fall") then 7/10
     else if lowerStr item.season ≠ "all-season" ∧ 25 < ctx.weather_profile.temp_c
             ∧ ¬(lowerStr item.season = "summer" ∨ lowerStr item.season = "spring") then 7/10
     else 1)
  * (if containsSub "rain" ctx.weather_profile.condition = true
        ∧ ¬(normalize_category (some item.category) = "shoes"
            ∨ normalize_category (some item.category) = "outerwear") then 9/10
     else if containsSub "cold" ctx.weather_profile.condition = true
             ∧ (normalize_category (some item.category) = "shorts"
                ∨ normalize_category (some item.category) = "skirt") then 3/5
     else 1)

/-- `_get_required_categories`. -/
def get_required_categories (ctx : GenerationContext) : List String :=
  match ctx.outfit_type with
  | .FORMAL => ["dress", "shoes", "accessory"]
  | .BUSINESS => ["top", "bottom", "shoes", "outerwear"]
  | .BUSINESS_CASUAL => ["top", "bottom", "shoes", "outerwear"]
  | _ => ["top", "bottom", "shoes"]

/-- `_check_item_compatibility`: reject if any existing pair has richer color
harmony < 0.5 or style compatibility < 0.5.  (The Python `None` color guard
collapses in this model, where a missing color key is the empty string.) -/
def check_item_compatibility (new_item : Item) (existing_items : List Item) : Bool :=
  if existing_items.isEmpty then true
  else
    (existing_items.all fun e =>
      !decide (ColorHarmony.calculate_harmony_score (lowerStr new_item.color) (lowerStr e.color)
               < (1/2 : ℚ)))
    && (existing_items.all fun e =>
      !decide (StyleCompatibility.calculate_style_compatibility new_item.style_tags e.style_tags
               < (1/2 : ℚ)))

/-- Association-list update used to model the dict built by `_categorize_items`
(insertion-ordered keys, items appended in wardrobe order). -/
def addToCat (acc : List (String × List Item)) (cat : String) (item : Item) :
    List (String × List Item) :=
  match acc with
  | [] => [(cat, [item])]
  | (c, l) :: rest =>
    if c = cat then (c, l ++ [item]) :: rest else (c, l) :: addToCat rest cat item

/-- `_categorize_items`. -/
def categorize_items (items : List Item) : List (String × List Item) :=
  items.foldl (fun acc item => addToCat acc (normalize_category (some item.category)) item) []

/-- Dict lookup `categorized_items[category]`. -/
def lookupCat (categorized : List (String × List Item)) (cat : String) : Option (List Item) :=
  (categorized.find? (fun p => p.1 == cat)).map (fun p => p.2)

/-- Descending-by-suitability order on scored items (Python's stable
`sort(key=..., reverse=True)` = stable insertion w.r.t. this non-strict relation). -/
def susGE (a b : Item × ℚ) : Prop := b.2 ≤ a.2

instance : DecidableRel susGE := fun a b => inferInstanceAs (Decidable (b.2 ≤ a.2))

instance : IsTotal (Item × ℚ) susGE := ⟨fun a b => le_total b.2 a.2⟩

instance : IsTrans (Item × ℚ) susGE := ⟨fun _ _ _ hab hbc => le_trans hbc hab⟩

/-- Base-selection state: chosen base items plus the context's blacklist. -/
structure SelState where
  base : List Item
  blk : List String
deriving DecidableEq

/-- Eligible candidates of one category: skip empty ids and blacklisted ids,
pair each with its suitability. -/
def scoredEligible (ctx : GenerationContext) (blk : List String) (catItems : List Item) :
    List (Item × ℚ) :=
  catItems.filterMap (fun item =>
    if item.id = "" then none
    else if blk.contains item.id then none
    else some (item, calculate_item_suitability item ctx))

/-- One required category of `_select_base_items`: pick the top-suitability
eligible item, gate it against the existing base, blacklist it when accepted;
when the gate fails nothing is added. -/
def select_category_step (categorized : List (String × List Item)) (ctx : GenerationContext)
    (st : SelState) (category : String) : SelState :=
  match lookupCat categorized category with
  | none => st
  | some catItems =>
    if catItems.isEmpty then st
    else
      match (List.insertionSort susGE (scoredEligible ctx st.blk catItems)).head? with
      | none => st
      | some best =>
        if check_item_compatibility best.1 st.base then
          ⟨st.base ++ [best.1], best.1.id :: st.blk⟩
        else st

/-- `_select_base_items`: force-include the focus item (without blacklisting it),
then fold over the required categories. -/
def select_base_items (categorized : List (String × List Item)) (ctx : GenerationContext)
    (blk0 : List String) : SelState :=
  (get_required_categories ctx).foldl (select_category_step categorized ctx)
    ⟨(match ctx.focus_item with | some f => [f] | none => []), blk0⟩

/-- `_get_complementary_categories`: always "accessory"; "outerwear" when
`temp_c < 15` and again when the condition mentions rain; two extra accessory
slots for formal / party / date-night. -/
def get_complementary_categories (ctx : GenerationContext) : List String :=
  ["accessory"]
  ++ (if ctx.weather_profile.temp_c < 15 then ["outerwear"] else [])
  ++ (if containsSub "rain" ctx.weather_profile.condition then ["outerwear"] else [])
  ++ (if ctx.outfit_type = .FORMAL ∨ ctx.outfit_type = .PARTY ∨ ctx.outfit_type = .DATE_NIGHT
      then ["accessory", "accessory"] else [])

/-- `_get_category_synergy`: look the lexicographically ordered pair up in the
synergy table, default 0.5. -/
def get_category_synergy (cat1 cat2 : String) : ℚ :=
  match [(("top","bottom"), (1 : ℚ)), (("dress","shoes"), 1), (("top","outerwear"), 9/10),
         (("bottom","shoes"), 9/10), (("accessory","top"), 4/5), (("accessory","dress"), 4/5),
         (("accessory","bottom"), 7/10)].find?
      (fun p => p.1 == (if strLtB cat1 cat2 then (cat1, cat2) else (cat2, cat1))) with
  | some p => p.2
  | none => 1/2

/-- `_calculate_compatibility_score`: 40% mean color harmony + 40% mean style
compatibility + 20% mean category synergy against the current outfit. -/
def calculate_compatibility_score (item : Item) (outfit_items : List Item)
    (ctx : GenerationContext) : ℚ :=
  if outfit_items.isEmpty then calculate_item_suitability item ctx
  else qMean (outfit_items.map (fun oi =>
    ColorHarmony.calculate_harmony_score (lowerStr item.color) (lowerStr oi.color) * (2/5)
    + StyleCompatibility.calculate_style_compatibility item.style_tags oi.style_tags * (2/5)
    + get_category_synergy (normalize_category (some item.category))
        (normalize_category (some oi.category)) * (1/5)))

/-- The best non-blacklisted candidate of one complementary category: strict
improvement over the running best starting from score 0, so the first maximal
candidate wins. -/
def find_best_comp (catItems outfit_items : List Item) (blk : List String)
    (ctx : GenerationContext) : Option Item × ℚ :=
  catItems.foldl (fun best item =>
    if blk.contains item.id then best
    else if best.2 < calculate_compatibility_score item outfit_items ctx
         then (some item, calculate_compatibility_score item outfit_items ctx)
         else best) (none, 0)

/-- One category of `_add_complementary_items`: accept the best candidate only
above the 0.6 threshold, and blacklist it. -/
def add_comp_step (categorized : List (String × List Item)) (ctx : GenerationContext)
    (st : List Item × List String) (category : String) : List Item × List String :=
  match lookupCat categorized category with
  | none => st
  | some catItems =>
    if catItems.isEmpty then st
    else
      match find_best_comp catItems st.1 st.2 ctx with
      | (some b, s) => if (3/5 : ℚ) < s then (st.1 ++ [b], b.id :: st.2) else st
      | (none, _) => st

/-- `_add_complementary_items`. -/
def add_complementary_items (categorized : List (String × List Item)) (ctx : GenerationContext)
    (base_items : List Item) (blk : List String) : List Item × List String :=
  (get_complementary_categories ctx).foldl (add_comp_step categorized ctx) (base_items, blk)

/-- `_deduplicate_items`: keep the first occurrence of each nonempty id. -/
def deduplicate_items (items : List Item) : List Item :=
  (items.foldl (fun (acc : List Item × List String) item =>
    if item.id != "" && !acc.2.contains item.id
    then (acc.1 ++ [item], item.id :: acc.2) else acc) ([], [])).1

/-- `_calculate_weather_adaptation_bonus`. -/
def calculate_weather_adaptation_bonus (outfit_items : List Item)
    (ctx : GenerationContext) : ℚ :=
  (if ctx.weather_profile.temp_c < 15 then
     (if outfit_items.any (fun i => normalize_category (some i.category) == "outerwear")
      then 6/5 else 4/5)
   else 1)
  * (if containsSub "rain" ctx.weather_profile.condition then
       (if outfit_items.any (fun i =>
            i.style_tags.contains "waterproof" || containsSub "boot" (lowerStr i.category))
        then 11/10 else 1)
     else 1)

/-- `_calculate_occasion_bonus` (note: compares the raw `formality` field, with
no lower-casing, exactly as the source does). -/
def calculate_occasion_bonus (outfit_items : List Item) (ctx : GenerationContext) : ℚ :=
  if ctx.outfit_type = .FORMAL then
    (if 2 ≤ outfit_items.countP (fun i => i.formality = "formal") then 6/5
     else if 1 ≤ outfit_items.countP (fun i => i.formality = "formal") then 1
     else 4/5)
  else if ctx.outfit_type = .BUSINESS ∨ ctx.outfit_type = .BUSINESS_CASUAL then
    (if 2 ≤ outfit_items.countP
        (fun i => i.formality = "business" ∨ i.formality = "business-casual") then 11/10
     else 1)
  else 1

/-- The pairwise `(color harmony + style compatibility) / 2` scores of
`_calculate_outfit_score`, enumerated exactly as the nested
`for i / for j in range(i+1, n)` loops do. -/
def pairCompatScores : List Item → List ℚ
  | [] => []
  | x :: xs =>
    xs.map (fun y =>
      (ColorHarmony.calculate_harmony_score (lowerStr x.color) (lowerStr y.color)
       + StyleCompatibility.calculate_style_compatibility x.style_tags y.style_tags) / 2)
    ++ pairCompatScores xs

/-- `_calculate_outfit_score`: 0.0 below `min_items`, otherwise the mean of the
item suitabilities, the pairwise compatibilities, the weather-adaptation bonus
and the occasion bonus. -/
def calculate_outfit_score (outfit_items : List Item) (ctx : GenerationContext) : ℚ :=
  if outfit_items.length < ctx.config.min_items then 0
  else qMean (outfit_items.map (fun i => calculate_item_suitability i ctx)
    ++ pairCompatScores outfit_items
    ++ [calculate_weather_adaptation_bonus outfit_items ctx,
        calculate_occasion_bonus outfit_items ctx])

/-! ### Orchestration loop -/

/-- Ascending string order for the dedup key (Python `sorted` on `str`). -/
def strLE (a b : String) : Prop := strLtB b a = false

instance : DecidableRel strLE := fun a b => inferInstanceAs (Decidable (strLtB b a = false))

/-- The dedup key: `tuple(sorted(str(item["_id"]) for item in outfit_items))`. -/
def idKey (items : List Item) : List String :=
  List.insertionSort strLE (items.map (fun i => i.id))

/-- One formatted outfit of the response (title, details and display images are
produced for the UI only and are omitted; `score` is rounded to 3 decimals as in
`_format_outfit_for_response`). -/
structure Outfit where
  items : List Item
  score : ℚ
  item_count : ℕ
  occasion_suitability : ℚ
  weather_adaptation : ℚ
deriving DecidableEq

/-- `_format_outfit_for_response`, restricted to the scored fields. -/
def format_outfit (outfit_items : List Item) (ctx : GenerationContext)
    (outfit_score : ℚ) : Outfit :=
  { items := outfit_items
    score := round3 outfit_score
    item_count := outfit_items.length
    occasion_suitability := calculate_occasion_bonus outfit_items ctx
    weather_adaptation := calculate_weather_adaptation_bonus outfit_items ctx }

/-- Accumulated loop state: accepted outfits and the set of used dedup keys. -/
structure GenState where
  outfits : List Outfit
  used : List (List String)
deriving DecidableEq

/-- The items produced by one generation attempt (each attempt starts from a
fresh empty blacklist, so every attempt computes the same value). -/
def attemptItems (categorized : List (String × List Item)) (ctx : GenerationContext) :
    List Item :=
  deduplicate_items
    (add_complementary_items categorized ctx
      (select_base_items categorized ctx []).base
      (select_base_items categorized ctx []).blk).1

/-- One iteration of the generation loop: stop when enough outfits exist, then
discard on too-few base items, too-few total items, duplicate key, or score
below 0.5; otherwise accept. -/
def attemptStep (categorized : List (String × List Item)) (ctx : GenerationContext)
    (num_outfits : ℕ) (st : GenState) : GenState :=
  if num_outfits ≤ st.outfits.length then st
  else if (select_base_items categorized ctx []).base.length < ctx.config.min_items then st
  else if (attemptItems categorized ctx).length < ctx.config.min_items then st
  else if idKey (attemptItems categorized ctx) ∈ st.used then st
  else if calculate_outfit_score (attemptItems categorized ctx) ctx < 1/2 then st
  else
    { outfits := st.outfits ++ [format_outfit (attemptItems categorized ctx) ctx
        (calculate_outfit_score (attemptItems categorized ctx) ctx)]
      used := idKey (attemptItems categorized ctx) :: st.used }

/-- `for attempt in range(n)` around `attemptStep`. -/
def genLoop (categorized : List (String × List Item)) (ctx : GenerationContext)
    (num_outfits : ℕ) : ℕ → GenState → GenState
  | 0, st => st
  | n + 1, st => genLoop categorized ctx num_outfits n (attemptStep categorized ctx num_outfits st)

/-- Descending-by-score order on outfits (`outfits.sort(key=..., reverse=True)`). -/
def outfitGE (a b : Outfit) : Prop := b.score ≤ a.score

instance : DecidableRel outfitGE := fun a b => inferInstanceAs (Decidable (b.score ≤ a.score))

instance : IsTotal Outfit outfitGE := ⟨fun a b => le_total b.score a.score⟩

instance : IsTrans Outfit outfitGE := ⟨fun _ _ _ hab hbc => le_trans hbc hab⟩

/-- The occasion sanitization at the head of `generate_outfits`:
`(occasion or "casual day").strip()`. -/
def sanitize_occasion (occasion : String) : String :=
  stripStr (if occasion = "" then "casual day" else occasion)

/-- `generate_outfits` (pure core: the wardrobe list is passed in; the TTL
cache, the Gemini refinement and history saving are external side effects that
do not alter the scored results). -/
def generate_outfits (user_items : List Item) (occasion : String)
    (temp : Option ℚ) (cond : Option String) (num_outfits : ℕ)
    (focus_item_id : Option String) : List Outfit :=
  if user_items.isEmpty then []
  else
    (List.insertionSort outfitGE
      (genLoop (categorize_items user_items)
        { occasion := sanitize_occasion occasion
          weather_profile := build_weather_profile temp cond
          outfit_type := determine_outfit_type (sanitize_occasion occasion)
          config := get_outfit_config (determine_outfit_type (sanitize_occasion occasion))
          focus_item := match focus_item_id with
            | none => none
            | some fid => user_items.find? (fun it => it.id == fid) }
        num_outfits
        (get_outfit_config (determine_outfit_type (sanitize_occasion occasion))).max_generation_attempts
        ⟨[], []⟩).outfits).take num_outfits

/-! ### Statement-side definitions (spec formulas and concrete inputs) -/

/-- The unordered pairs of a list, in the order the nested
`for i / for j in range(i+1, n)` loops visit them. -/
def unorderedPairs {α : Type} : List α → List (α × α)
  | [] => []
  | x :: xs => xs.map (fun y => (x, y)) ++ unorderedPairs xs

/-- The aggregate-score formula exactly as claim C2 states it: the pairwise term
uses the simple `_color_harmony` variant from `style_scoring.py`. -/
def outfit_score_spec_simple (outfit_items : List Item) (ctx : GenerationContext) : ℚ :=
  if outfit_items.length < ctx.config.min_items then 0
  else qMean (outfit_items.map (fun i => calculate_item_suitability i ctx)
    ++ (unorderedPairs outfit_items).map (fun p =>
         (color_harmony p.1.color p.2.color
          + StyleCompatibility.calculate_style_compatibility p.1.style_tags p.2.style_tags) / 2)
    ++ [calculate_weather_adaptation_bonus outfit_items ctx,
        calculate_occasion_bonus outfit_items ctx])

/-- The aggregate-score formula with the pairwise term driven by the richer
`ColorHarmony.calculate_harmony_score` variant (the amended form of claim C2). -/
def outfit_score_richer_formula (outfit_items : List Item) (ctx : GenerationContext) : ℚ :=
  if outfit_items.length < ctx.config.min_items then 0
  else qMean (outfit_items.map (fun i => calculate_item_suitability i ctx)
    ++ (unorderedPairs outfit_items).map (fun p =>
         (ColorHarmony.calculate_harmony_score (lowerStr p.1.color) (lowerStr p.2.color)
          + StyleCompatibility.calculate_style_compatibility p.1.style_tags p.2.style_tags) / 2)
    ++ [calculate_weather_adaptation_bonus outfit_items ctx,
        calculate_occasion_bonus outfit_items ctx])

/-- Inputs whose strip is empty only when the whole string is empty, i.e.
everything except nonempty whitespace-only strings (the amended scope of the
idempotence claim C9). -/
def WsSafe : Option String → Prop
  | none => True
  | some s => s = "" ∨ stripStr s ≠ ""

/-- Loop invariant of the generation loop: every accepted outfit has enough
items, a rounded score of at least 0.5, and a recorded dedup key; the recorded
keys make the accepted outfits pairwise distinct as id sets. -/
def GenInv (ctx : GenerationContext) (st : GenState) : Prop :=
  (∀ o ∈ st.outfits,
    ctx.config.min_items ≤ o.items.length ∧ (1/2 : ℚ) ≤ o.score ∧ idKey o.items ∈ st.used)
  ∧ List.Pairwise (fun a b => idKey a.items ≠ idKey b.items) st.outfits

/-- Wardrobe of test scenario B: one black top, one black bottom. -/
def topBlack : Item := ⟨"t1", "top", "black", [], "casual", "all-season"⟩

def bottomBlack : Item := ⟨"b1", "bottom", "black", [], "casual", "all-season"⟩

def topRed : Item := ⟨"t2", "top", "red", [], "casual", "all-season"⟩

def bottomRed : Item := ⟨"b2", "bottom", "red", [], "casual", "all-season"⟩

/-- An item whose raw category is "shorts" (normalized to "bottom"). -/
def shortsItem : Item := ⟨"s1", "shorts", "blue", [], "casual", "all-season"⟩

/-- The context produced by a "casual day" request at 22 °C, clear. -/
def ctxCasualWarm : GenerationContext :=
  ⟨"casual day", build_weather_profile (some 22) (some "clear"),
   determine_outfit_type "casual day", get_outfit_config (determine_outfit_type "casual day"),
   none⟩

/-- A context at 14 °C (bucket "mild", below the generator's 15 °C outerwear cutoff). -/
def ctxMild14 : GenerationContext :=
  ⟨"casual day", build_weather_profile (some 14) (some "clear"),
   .CASUAL, get_outfit_config .CASUAL, none⟩

/-- A context whose weather condition string is "cold" (10 °C). -/
def ctxColdCond : GenerationContext :=
  ⟨"casual day", build_weather_profile (some 10) (some "cold"),
   .CASUAL, get_outfit_config .CASUAL, none⟩

/-! ## Theorems -/

/-! ### Arithmetic and list helpers -/

theorem round3_ge_half {q : ℚ} (h : (1/2 : ℚ) ≤ q) : (1/2 : ℚ) ≤ round3 q := by
  have h500 : ((500 : ℤ) : ℚ) ≤ q * 1000 := by push_cast; linarith
  have hf : (500 : ℤ) ≤ ⌊q * 1000⌋ := Int.le_floor.mpr h500
  have hf' : (500 : ℚ) ≤ (⌊q * 1000⌋ : ℚ) := by exact_mod_cast hf
  unfold round3
  split_ifs <;> rw [le_div_iff₀ (by norm_num : (0:ℚ) < 1000)] <;> linarith

theorem harmony_score_nonneg (c1 c2 : String) :
    0 ≤ ColorHarmony.calculate_harmony_score c1 c2 := by
  unfold ColorHarmony.calculate_harmony_score
  split_ifs <;> norm_num

theorem style_compatibility_nonneg (t1 t2 : List String) :
    0 ≤ StyleCompatibility.calculate_style_compatibility t1 t2 := by
  unfold StyleCompatibility.calculate_style_compatibility
  split_ifs <;> norm_num

theorem item_suitability_pos (item : Item) (ctx : GenerationContext) :
    0 < calculate_item_suitability item ctx := by
  unfold calculate_item_suitability
  split_ifs <;> norm_num

theorem weather_bonus_pos (items : List Item) (ctx : GenerationContext) :
    0 < calculate_weather_adaptation_bonus items ctx := by
  unfold calculate_weather_adaptation_bonus
  split_ifs <;> norm_num

theorem occasion_bonus_pos (items : List Item) (ctx : GenerationContext) :
    0 < calculate_occasion_bonus items ctx := by
  unfold calculate_occasion_bonus
  split_ifs <;> norm_num

theorem qMean_nonneg {l : List ℚ} (h : ∀ x ∈ l, 0 ≤ x) : 0 ≤ qMean l := by
  unfold qMean
  split_ifs
  · exact le_refl 0
  · exact div_nonneg (List.sum_nonneg h) (Nat.cast_nonneg _)

theorem pairCompatScores_nonneg (items : List Item) :
    ∀ x ∈ pairCompatScores items, 0 ≤ x := by
  induction items with
  | nil => intro x hx; simp [pairCompatScores] at hx
  | cons a l ih =>
    intro x hx
    simp only [pairCompatScores, List.mem_append, List.mem_map] at hx
    rcases hx with ⟨y, _, rfl⟩ | hx
    · have h1 := harmony_score_nonneg (lowerStr a.color) (lowerStr y.color)
      have h2 := style_compatibility_nonneg a.style_tags y.style_tags
      linarith
    · exact ih x hx

theorem pairCompatScores_eq (items : List Item) :
    pairCompatScores items = (unorderedPairs items).map (fun p =>
      (ColorHarmony.calculate_harmony_score (lowerStr p.1.color) (lowerStr p.2.color)
       + StyleCompatibility.calculate_style_compatibility p.1.style_tags p.2.style_tags) / 2) := by
  induction items with
  | nil => rfl
  | cons a l ih =>
    simp only [pairCompatScores, unorderedPairs, List.map_append, List.map_map, ih]
    rfl

/-! ### Claim theorems (closed evaluations) -/

/-- C3: the category-synergy lookup key is the lexicographically sorted pair, but
the table stores ("top","bottom") and ("top","outerwear") unsorted, so those
entries are unreachable: the code returns the 0.5 default for top/bottom (the
claim and spec say 1.0) and for top/outerwear (the claim says 0.9). -/
theorem category_synergy_unsorted_entries_dead :
    get_category_synergy "top" "bottom" = 1/2
    ∧ get_category_synergy "bottom" "top" = 1/2
    ∧ get_category_synergy "top" "outerwear" = 1/2
    ∧ get_category_synergy "outerwear" "top" = 1/2
    ∧ get_category_synergy "dress" "shoes" = 1
    ∧ get_category_synergy "shoes" "dress" = 1 := by decide

/-- C8: the ×0.6 cold-weather penalty branch is dead code: the membership test
`category in ["shorts", "skirt"]` runs on the normalized category, and
`normalize_category` maps "shorts" (and "skirt") to "bottom", so an
all-season "shorts" item under a "cold" condition scores 1.0, not 0.6. -/
theorem cold_shorts_penalty_dead :
    normalize_category (some shortsItem.category) = "bottom"
    ∧ containsSub "cold" ctxColdCond.weather_profile.condition = true
    ∧ calculate_item_suitability shortsItem ctxColdCond = 1 := by decide

/-- C10: the richer color-harmony function is not commutative: the
complementary-pair table maps "pink" to "mint" (score 0.95) but not "mint" to
"pink", which falls through to the 0.7 default. -/
theorem harmony_not_commutative :
    ColorHarmony.calculate_harmony_score "pink" "mint" = 19/20
    ∧ ColorHarmony.calculate_harmony_score "mint" "pink" = 7/10
    ∧ ColorHarmony.calculate_harmony_score "pink" "mint"
        ≠ ColorHarmony.calculate_harmony_score "mint" "pink" := by decide

/-- C2 counterexample: on a two-item red top / red bottom outfit the code's
aggregate score (richer harmony: identical colors → 0.8) is 0.97, while the
claim's formula (simple harmony: identical colors → 0.7) gives 0.96, so the
simple variant does not drive aggregate outfit scoring. -/
theorem outfit_score_not_simple_harmony :
    calculate_outfit_score [topRed, bottomRed] ctxCasualWarm = 97/100
    ∧ outfit_score_spec_simple [topRed, bottomRed] ctxCasualWarm = 24/25
    ∧ calculate_outfit_score [topRed, bottomRed] ctxCasualWarm
        ≠ outfit_score_spec_simple [topRed, bottomRed] ctxCasualWarm := by decide

/-- C7 counterexample: at 14 °C with a clear condition the weather bucket is
"mild" (not "cold") and nothing mentions rain, yet the generator still adds
"outerwear", because the code tests `temp_c < 15`, not the cold bucket. -/
theorem complementary_outerwear_at_14C :
    "outerwear" ∈ get_complementary_categories ctxMild14
    ∧ ctxMild14.weather_profile.bucket ≠ "cold"
    ∧ containsSub "rain" ctxMild14.weather_profile.condition = false := by decide

/-- C9 counterexample: the normalizers are not idempotent on whitespace-only
strings: both map " " to "" (falsiness is checked before stripping), and ""
then maps to "unknown" on the second application. -/
theorem normalize_idem_fails_on_whitespace :
    normalize_category (some " ") = ""
    ∧ normalize_category (some (normalize_category (some " "))) = "unknown"
    ∧ normalize_category (some (normalize_category (some " "))) ≠ normalize_category (some " ")
    ∧ normalize_color (some " ") = ""
    ∧ normalize_color (some (normalize_color (some " "))) ≠ normalize_color (some " ") := by
  decide

set_option maxRecDepth 100000 in
set_option maxHeartbeats 4000000 in
/-- C6: with a wardrobe of exactly one black top and one black bottom, occasion
"casual day" and 22 °C clear weather, generation returns exactly one outfit,
it contains both items, and its score 0.97 exceeds 0.5. -/
theorem scenario_b_single_outfit :
    (generate_outfits [topBlack, bottomBlack] "casual day" (some 22) (some "clear") 3 none).length = 1
    ∧ ∀ o ∈ generate_outfits [topBlack, bottomBlack] "casual day" (some 22) (some "clear") 3 none,
        topBlack ∈ o.items ∧ bottomBlack ∈ o.items ∧ (1/2 : ℚ) < o.score := by decide

/-- C5: the outfit scorer returns exactly 0 when the item count is below the
config's `min_items`, and is non-negative (hence finite, being a rational) in
every case: every aggregated component — suitabilities, pairwise
compatibilities, weather and occasion bonuses — is non-negative. -/
theorem outfit_score_zero_or_nonneg (outfit_items : List Item) (ctx : GenerationContext) :
    (outfit_items.length < ctx.config.min_items → calculate_outfit_score outfit_items ctx = 0)
    ∧ 0 ≤ calculate_outfit_score outfit_items ctx := by
  constructor
  · intro h
    unfold calculate_outfit_score
    rw [if_pos h]
  · unfold calculate_outfit_score
    split_ifs with h
    · exact le_refl 0
    · apply qMean_nonneg
      intro x hx
      simp only [List.mem_append, List.mem_map, List.mem_cons,
        List.not_mem_nil, or_false] at hx
      rcases hx with (⟨i, _, rfl⟩ | hp) | (rfl | rfl)
      · exact le_of_lt (item_suitability_pos i ctx)
      · exact pairCompatScores_nonneg outfit_items x hp
      · exact le_of_lt (weather_bonus_pos outfit_items ctx)
      · exact le_of_lt (occasion_bonus_pos outfit_items ctx)

/-- C5 witness: a one-item outfit under the casual config (min_items = 2)
scores exactly 0, and the score is non-negative. -/
theorem outfit_score_zero_or_nonneg_witness :
    calculate_outfit_score [topBlack] ctxCasualWarm = 0
    ∧ 0 ≤ calculate_outfit_score [topBlack] ctxCasualWarm :=
  ⟨(outfit_score_zero_or_nonneg [topBlack] ctxCasualWarm).1 (by decide),
   (outfit_score_zero_or_nonneg [topBlack] ctxCasualWarm).2⟩

/-- C2 (amended): the aggregate outfit score equals the arithmetic mean of the
item suitabilities, the unordered pairwise averages of the RICHER
color-harmony variant with style compatibility, one weather-adaptation bonus
and one occasion bonus — the richer variant, not the simple one, drives
aggregate scoring. -/
theorem outfit_score_eq_richer_formula (outfit_items : List Item) (ctx : GenerationContext) :
    calculate_outfit_score outfit_items ctx = outfit_score_richer_formula outfit_items ctx := by
  unfold calculate_outfit_score outfit_score_richer_formula
  rw [pairCompatScores_eq]

/-- C7 (amended): "outerwear" is in the complementary-category list iff the
temperature is strictly below 15 °C (the code's cutoff, not the cold bucket's
12 °C) or the condition mentions rain; the list always contains "accessory",
with two extra accessory slots exactly for FORMAL, PARTY and DATE_NIGHT. -/
theorem complementary_categories_spec (ctx : GenerationContext) :
    ("outerwear" ∈ get_complementary_categories ctx ↔
      ctx.weather_profile.temp_c < 15 ∨ containsSub "rain" ctx.weather_profile.condition = true)
    ∧ "accessory" ∈ get_complementary_categories ctx
    ∧ (get_complementary_categories ctx).count "accessory"
        = (if ctx.outfit_type = .FORMAL ∨ ctx.outfit_type = .PARTY ∨ ctx.outfit_type = .DATE_NIGHT
           then 3 else 1) := by
  unfold get_complementary_categories
  split_ifs <;> simp_all [List.count_cons, List.count_append]

/-- C7 witness: the amended characterization instantiated at the 14 °C context. -/
theorem complementary_categories_spec_witness :
    ("outerwear" ∈ get_complementary_categories ctxMild14 ↔
      ctxMild14.weather_profile.temp_c < 15
      ∨ containsSub "rain" ctxMild14.weather_profile.condition = true)
    ∧ "accessory" ∈ get_complementary_categories ctxMild14
    ∧ (get_complementary_categories ctxMild14).count "accessory"
        = (if ctxMild14.outfit_type = .FORMAL ∨ ctxMild14.outfit_type = .PARTY
              ∨ ctxMild14.outfit_type = .DATE_NIGHT
           then 3 else 1) :=
  complementary_categories_spec ctxMild14

/-! ### Base selection (C4) -/

theorem sorted_head_max {l : List (Item × ℚ)} {best : Item × ℚ}
    (h : (List.insertionSort susGE l).head? = some best) :
    best ∈ l ∧ ∀ p ∈ l, p.2 ≤ best.2 := by
  have hperm : List.Perm (List.insertionSort susGE l) l := List.perm_insertionSort susGE l
  have hsorted : List.Sorted susGE (List.insertionSort susGE l) :=
    List.sorted_insertionSort susGE l
  rcases hl : (List.insertionSort susGE l) with _ | ⟨b, t⟩
  case nil => rw [hl] at h; exact absurd h (by simp)
  case cons =>
    rw [hl] at h hperm hsorted
    have hb : b = best := by simpa using h
    subst hb
    refine ⟨hperm.mem_iff.mp (List.mem_cons_self b t), ?_⟩
    intro p hp
    rcases (List.mem_cons).mp (hperm.mem_iff.mpr hp) with rfl | hm
    · exact le_refl _
    · exact List.rel_of_sorted_cons hsorted p hm

theorem scoredEligible_spec {ctx : GenerationContext} {blk : List String}
    {catItems : List Item} {p : Item × ℚ} (h : p ∈ scoredEligible ctx blk catItems) :
    p.1 ∈ catItems ∧ p.1.id ≠ "" ∧ blk.contains p.1.id = false
    ∧ p.2 = calculate_item_suitability p.1 ctx := by
  unfold scoredEligible at h
  rw [List.mem_filterMap] at h
  rcases h with ⟨a, ha, hf⟩
  by_cases hid : a.id = ""
  · rw [if_pos hid] at hf
    exact absurd hf (by simp)
  · rw [if_neg hid] at hf
    by_cases hblk : blk.contains a.id = true
    · rw [if_pos hblk] at hf
      exact absurd hf (by simp)
    · rw [if_neg hblk] at hf
      have hp := Option.some.inj hf
      subst hp
      exact ⟨ha, hid, by simpa using hblk, rfl⟩

theorem check_item_compatibility_iff (new_item : Item) (existing : List Item) :
    check_item_compatibility new_item existing = true ↔
      ∀ e ∈ existing,
        (1/2 : ℚ) ≤ ColorHarmony.calculate_harmony_score (lowerStr new_item.color) (lowerStr e.color)
        ∧ (1/2 : ℚ) ≤ StyleCompatibility.calculate_style_compatibility
            new_item.style_tags e.style_tags := by
  unfold check_item_compatibility
  split_ifs with h
  · simp [List.isEmpty_iff.mp h]
  · rw [Bool.and_eq_true, List.all_eq_true, List.all_eq_true]
    simp only [Bool.not_eq_true', decide_eq_false_iff_not, not_lt]
    constructor
    · rintro ⟨hc, hs⟩ e he
      exact ⟨hc e he, hs e he⟩
    · intro hb
      exact ⟨fun e he => (hb e he).1, fun e he => (hb e he).2⟩

/-- C4: one required category of base selection.  The candidate at the head of
the stable descending sort is an eligible (nonempty-id, non-blacklisted) item
of the category paired with its suitability score, and no eligible candidate
scores higher; it is accepted — appended to the base and its id pushed onto
the blacklist — exactly when the compatibility gate passes, i.e. when against
every already-chosen base item the richer color harmony is at least 0.5 and
the style compatibility is at least 0.5; when the gate fails the state is
unchanged, so no other item of the category is tried. -/
theorem select_base_gate (categorized : List (String × List Item)) (ctx : GenerationContext)
    (st : SelState) (category : String) (catItems : List Item) (best : Item × ℚ)
    (hcat : lookupCat categorized category = some catItems)
    (hne : catItems.isEmpty = false)
    (hbest : (List.insertionSort susGE (scoredEligible ctx st.blk catItems)).head? = some best) :
    (best.1 ∈ catItems ∧ best.1.id ≠ "" ∧ st.blk.contains best.1.id = false
      ∧ best.2 = calculate_item_suitability best.1 ctx)
    ∧ (∀ p ∈ scoredEligible ctx st.blk catItems, p.2 ≤ best.2)
    ∧ (check_item_compatibility best.1 st.base = true →
        select_category_step categorized ctx st category
          = ⟨st.base ++ [best.1], best.1.id :: st.blk⟩)
    ∧ (check_item_compatibility best.1 st.base = false →
        select_category_step categorized ctx st category = st)
    ∧ (check_item_compatibility best.1 st.base = true ↔
        ∀ e ∈ st.base,
          (1/2 : ℚ) ≤ ColorHarmony.calculate_harmony_score
              (lowerStr best.1.color) (lowerStr e.color)
          ∧ (1/2 : ℚ) ≤ StyleCompatibility.calculate_style_compatibility
              best.1.style_tags e.style_tags) := by
  have hmem := sorted_head_max hbest
  have hel := scoredEligible_spec hmem.1
  refine ⟨hel, hmem.2, ?_, ?_, check_item_compatibility_iff best.1 st.base⟩
  · intro hchk
    unfold select_category_step
    rw [hcat]
    simp only [hne, Bool.false_eq_true, if_false, hbest, hchk, if_true]
  · intro hchk
    unfold select_category_step
    rw [hcat]
    simp only [hne, Bool.false_eq_true, if_false, hbest, hchk]

/-- C4 witness: on the two-item black wardrobe, selecting the "top" category
from an empty base accepts the black top (the gate passes vacuously) and
immediately blacklists its id. -/
theorem select_base_gate_witness :
    select_category_step (categorize_items [topBlack, bottomBlack]) ctxCasualWarm
      ⟨[], []⟩ "top" = ⟨[topBlack], [topBlack.id]⟩ :=
  (select_base_gate (categorize_items [topBlack, bottomBlack]) ctxCasualWarm ⟨[], []⟩
      "top" [topBlack] (topBlack, 11/10) (by decide) (by decide) (by decide)).2.2.1
    (by decide)

/-! ### Generation loop invariants (C1) -/

theorem attemptStep_inv (categorized : List (String × List Item)) (ctx : GenerationContext)
    (num : ℕ) {st : GenState} (h : GenInv ctx st) :
    GenInv ctx (attemptStep categorized ctx num st) := by
  unfold attemptStep
  split_ifs with h1 h2 h3 h4 h5
  · exact h
  · exact h
  · exact h
  · exact h
  · exact h
  · unfold GenInv at h ⊢
    constructor
    · intro o ho
      rcases List.mem_append.mp ho with hol | honew
      · obtain ⟨hlen, hsc, hkey⟩ := h.1 o hol
        exact ⟨hlen, hsc, List.mem_cons_of_mem _ hkey⟩
      · have ho' : o = format_outfit (attemptItems categorized ctx) ctx
            (calculate_outfit_score (attemptItems categorized ctx) ctx) := by
          simpa using honew
        subst ho'
        refine ⟨?_, ?_, ?_⟩
        · simpa [format_outfit] using le_of_not_lt h3
        · simpa [format_outfit] using round3_ge_half (le_of_not_lt h5)
        · simp [format_outfit]
    · rw [List.pairwise_append]
      refine ⟨h.2, List.pairwise_singleton _ _, ?_⟩
      intro a ha b hb
      have hb' : b = format_outfit (attemptItems categorized ctx) ctx
          (calculate_outfit_score (attemptItems categorized ctx) ctx) := by
        simpa using hb
      subst hb'
      have hkey := (h.1 a ha).2.2
      simp only [format_outfit]
      intro heq
      exact h4 (heq ▸ hkey)

theorem genLoop_inv (categorized : List (String × List Item)) (ctx : GenerationContext)
    (num : ℕ) (n : ℕ) (st : GenState) (h : GenInv ctx st) :
    GenInv ctx (genLoop categorized ctx num n st) := by
  induction n generalizing st with
  | zero => exact h
  | succ n ih => exact ih _ (attemptStep_inv categorized ctx num h)

theorem postprocess_spec (ctx : GenerationContext) (st : GenState) (hinv : GenInv ctx st)
    (num : ℕ) :
    ((List.insertionSort outfitGE st.outfits).take num).length ≤ num
    ∧ List.Pairwise (fun a b => b.score ≤ a.score)
        ((List.insertionSort outfitGE st.outfits).take num)
    ∧ List.Pairwise (fun a b => idKey a.items ≠ idKey b.items)
        ((List.insertionSort outfitGE st.outfits).take num)
    ∧ ∀ o ∈ (List.insertionSort outfitGE st.outfits).take num,
        ctx.config.min_items ≤ o.items.length ∧ (1/2 : ℚ) ≤ o.score := by
  have hsorted : List.Sorted outfitGE (List.insertionSort outfitGE st.outfits) :=
    List.sorted_insertionSort outfitGE st.outfits
  have hperm : List.Perm (List.insertionSort outfitGE st.outfits) st.outfits :=
    List.perm_insertionSort outfitGE st.outfits
  have hsymm : ∀ {x y : Outfit},
      idKey x.items ≠ idKey y.items → idKey y.items ≠ idKey x.items :=
    fun hab heq => hab heq.symm
  refine ⟨?_, ?_, ?_, ?_⟩
  · rw [List.length_take]
    exact min_le_left _ _
  · exact (hsorted.sublist (List.take_sublist _ _)).imp (fun hr => hr)
  · exact (((hperm.pairwise_iff hsymm).mpr hinv.2).sublist (List.take_sublist _ _))
  · intro o ho
    have ho' : o ∈ st.outfits :=
      hperm.mem_iff.mp ((List.take_sublist _ _).subset ho)
    obtain ⟨hlen, hsc, _⟩ := hinv.1 o ho'
    exact ⟨hlen, hsc⟩

/-- C1: every result of `generate_outfits` has at most `num_outfits` outfits,
is sorted by (rounded) score in descending order, contains no two outfits with
the same sorted tuple of item ids, and every returned outfit has at least the
outfit type config's `min_items` items and a score of at least 0.5. -/
theorem generate_outfits_invariants (user_items : List Item) (occasion : String)
    (temp : Option ℚ) (cond : Option String) (num_outfits : ℕ)
    (focus_item_id : Option String) :
    (generate_outfits user_items occasion temp cond num_outfits focus_item_id).length
        ≤ num_outfits
    ∧ List.Pairwise (fun a b => b.score ≤ a.score)
        (generate_outfits user_items occasion temp cond num_outfits focus_item_id)
    ∧ List.Pairwise (fun a b => idKey a.items ≠ idKey b.items)
        (generate_outfits user_items occasion temp cond num_outfits focus_item_id)
    ∧ ∀ o ∈ generate_outfits user_items occasion temp cond num_outfits focus_item_id,
        (get_outfit_config (determine_outfit_type (sanitize_occasion occasion))).min_items
            ≤ o.items.length
        ∧ (1/2 : ℚ) ≤ o.score := by
  unfold generate_outfits
  split_ifs with hempty
  · simp
  · exact postprocess_spec _ _
      (genLoop_inv _ _ _ _ _
        ⟨fun o ho => absurd ho (List.not_mem_nil o), List.Pairwise.nil⟩)
      num_outfits

/-- C1 witness: the invariants instantiated on the concrete scenario-B wardrobe
with `num_outfits = 2`. -/
theorem generate_outfits_invariants_witness :
    (generate_outfits [topBlack, bottomBlack] "casual day" (some 22) (some "clear") 2 none).length
        ≤ 2
    ∧ List.Pairwise (fun a b => b.score ≤ a.score)
        (generate_outfits [topBlack, bottomBlack] "casual day" (some 22) (some "clear") 2 none) :=
  ⟨(generate_outfits_invariants [topBlack, bottomBlack] "casual day"
      (some 22) (some "clear") 2 none).1,
   (generate_outfits_invariants [topBlack, bottomBlack] "casual day"
      (some 22) (some "clear") 2 none).2.1⟩

/-- C2 witness: the amended formula instantiated on the red two-item outfit. -/
theorem outfit_score_eq_richer_formula_witness :
    calculate_outfit_score [topRed, bottomRed] ctxCasualWarm
      = outfit_score_richer_formula [topRed, bottomRed] ctxCasualWarm :=
  outfit_score_eq_richer_formula [topRed, bottomRed] ctxCasualWarm

/-! ### Normalizer idempotence (C9) -/

theorem lowPairs_snd_fix : ∀ p ∈ lowPairs, lowPairs.find? (fun q => q.1 == p.2) = none := by
  decide

theorem lowPairs_ws : ∀ p ∈ lowPairs, isWs p.1 = false ∧ isWs p.2 = false := by decide

theorem lowCh_of_find_none {d : Char} (hd : lowPairs.find? (fun p => p.1 == d) = none) :
    lowCh d = d := by
  unfold lowCh
  rw [hd]

theorem lowCh_lowCh (c : Char) : lowCh (lowCh c) = lowCh c := by
  cases hf : lowPairs.find? (fun p => p.1 == c) with
  | none =>
    rw [lowCh_of_find_none hf]
    exact lowCh_of_find_none hf
  | some p =>
    have hp2 : lowCh c = p.2 := by unfold lowCh; rw [hf]
    rw [hp2]
    exact lowCh_of_find_none (lowPairs_snd_fix p (List.mem_of_find?_eq_some hf))

theorem isWs_lowCh (c : Char) : isWs (lowCh c) = isWs c := by
  cases hf : lowPairs.find? (fun p => p.1 == c) with
  | none =>
    rw [lowCh_of_find_none hf]
  | some p =>
    have hmem := List.mem_of_find?_eq_some hf
    have hpc : p.1 = c := by simpa using List.find?_some hf
    have hp2 : lowCh c = p.2 := by unfold lowCh; rw [hf]
    rw [hp2, (lowPairs_ws p hmem).2, ← hpc, (lowPairs_ws p hmem).1]

theorem dropWhile_dropWhile (p : Char → Bool) (l : List Char) :
    (l.dropWhile p).dropWhile p = l.dropWhile p := by
  induction l with
  | nil => rfl
  | cons a t ih =>
    by_cases h : p a
    · simp [List.dropWhile_cons, h, ih]
    · simp [List.dropWhile_cons, h]

theorem dropWhile_eq_self_of_pre (p : Char → Bool) {l₁ l₂ : List Char}
    (h : l₁ <+: l₂) (h₂ : l₂.dropWhile p = l₂) : l₁.dropWhile p = l₁ := by
  cases l₁ with
  | nil => rfl
  | cons a t =>
    cases l₂ with
    | nil => exact absurd h (by simp)
    | cons b t₂ =>
      obtain ⟨hab, -⟩ := Iff.mp List.cons_prefix_cons h
      have hpb : p b = false := by
        by_contra hpb'
        rw [List.dropWhile_cons, if_pos (by simpa using hpb')] at h₂
        have hsuf : t₂.dropWhile p <:+ t₂ := List.dropWhile_suffix p
        have hle := hsuf.sublist.length_le
        rw [h₂] at hle
        simp at hle
      rw [List.dropWhile_cons, hab]
      simp [hpb]

theorem rdropWhile_pre (p : Char → Bool) (x : List Char) :
    (x.reverse.dropWhile p).reverse <+: x := by
  have hsuf : (x.reverse.dropWhile p) <:+ x.reverse := List.dropWhile_suffix p
  have hp := Iff.mpr List.reverse_prefix hsuf
  simpa using hp

theorem stripL_stripL (l : List Char) : stripL (stripL l) = stripL l := by
  unfold stripL
  have hm1 : (l.dropWhile isWs).dropWhile isWs = l.dropWhile isWs :=
    dropWhile_dropWhile isWs l
  have hpre : (((l.dropWhile isWs).reverse.dropWhile isWs).reverse) <+: l.dropWhile isWs :=
    rdropWhile_pre isWs (l.dropWhile isWs)
  have h1 : (((l.dropWhile isWs).reverse.dropWhile isWs).reverse).dropWhile isWs
      = ((l.dropWhile isWs).reverse.dropWhile isWs).reverse :=
    dropWhile_eq_self_of_pre isWs hpre hm1
  rw [h1, List.reverse_reverse, dropWhile_dropWhile]

theorem dropWhile_map_lowCh (l : List Char) :
    (l.map lowCh).dropWhile isWs = (l.dropWhile isWs).map lowCh := by
  rw [List.dropWhile_map]
  congr 2
  funext c
  exact isWs_lowCh c

theorem stripL_map_lowCh (l : List Char) :
    stripL (l.map lowCh) = (stripL l).map lowCh := by
  unfold stripL
  rw [dropWhile_map_lowCh, ← List.map_reverse, dropWhile_map_lowCh, ← List.map_reverse]

theorem map_lowCh_map_lowCh (l : List Char) : (l.map lowCh).map lowCh = l.map lowCh := by
  rw [List.map_map]
  congr 1
  funext c
  exact lowCh_lowCh c

theorem preS_idem (s : String) :
    lowerStr (stripStr (lowerStr (stripStr s))) = lowerStr (stripStr s) := by
  simp only [lowerStr, stripStr]
  congr 1
  rw [stripL_map_lowCh, stripL_stripL, map_lowCh_map_lowCh]

theorem lowerStr_ne_empty {s : String} (h : s ≠ "") : lowerStr s ≠ "" := by
  intro he
  apply h
  have hdata : s.data.map lowCh = [] := congrArg String.data he
  have hnil : s.data = [] := List.map_eq_nil_iff.mp hdata
  cases s
  simp_all

theorem normalize_category_classify_fix (c : String) (hc : c ≠ "")
    (hpre : lowerStr (stripStr c) = c) :
    normalize_category (some (classifyCat c)) = classifyCat c := by
  unfold classifyCat
  split_ifs with h1 h2 h3 h4 h5 h6
  · decide
  · decide
  · decide
  · decide
  · decide
  · decide
  · show (if c = "" then "unknown" else classifyCat (lowerStr (stripStr c))) = c
    rw [if_neg hc, hpre]
    unfold classifyCat
    rw [if_neg h1, if_neg h2, if_neg h3, if_neg h4, if_neg h5, if_neg h6]

theorem colorAliases_fix : ∀ p ∈ colorAliases,
    p.2 ≠ "" ∧ lowerStr (stripStr p.2) = p.2
    ∧ colorAliases.find? (fun q => q.1 == p.2) = none := by decide

theorem normalize_color_ws_idem (x : Option String) (hx : WsSafe x) :
    normalize_color (some (normalize_color x)) = normalize_color x := by
  match x with
  | none => decide
  | some s =>
    by_cases hs : s = ""
    · subst hs; decide
    · have hx' : stripStr s ≠ "" := by
        rcases hx with h | h
        · exact absurd h hs
        · exact h
      have hc' : lowerStr (stripStr s) ≠ "" := lowerStr_ne_empty hx'
      have hpre := preS_idem s
      rw [show normalize_color (some s)
            = (match colorAliases.find? (fun p => p.1 == lowerStr (stripStr s)) with
               | some p => p.2
               | none => lowerStr (stripStr s)) from by
        show (if s = "" then "unknown" else _) = _
        rw [if_neg hs]]
      cases hf : colorAliases.find? (fun p => p.1 == lowerStr (stripStr s)) with
      | some p =>
        obtain ⟨hp2ne, hp2pre, hp2find⟩ :=
          colorAliases_fix p (List.mem_of_find?_eq_some hf)
        show normalize_color (some p.2) = p.2
        rw [show normalize_color (some p.2)
              = (match colorAliases.find? (fun q => q.1 == lowerStr (stripStr p.2)) with
                 | some q => q.2
                 | none => lowerStr (stripStr p.2)) from by
          show (if p.2 = "" then "unknown" else _) = _
          rw [if_neg hp2ne], hp2pre, hp2find]
      | none =>
        show normalize_color (some (lowerStr (stripStr s))) = lowerStr (stripStr s)
        rw [show normalize_color (some (lowerStr (stripStr s)))
              = (match colorAliases.find?
                    (fun q => q.1 == lowerStr (stripStr (lowerStr (stripStr s)))) with
                 | some q => q.2
                 | none => lowerStr (stripStr (lowerStr (stripStr s)))) from by
          show (if lowerStr (stripStr s) = "" then "unknown" else _) = _
          rw [if_neg hc'], hpre, hf]

theorem normalize_category_ws_idem (x : Option String) (hx : WsSafe x) :
    normalize_category (some (normalize_category x)) = normalize_category x := by
  match x with
  | none => decide
  | some s =>
    by_cases hs : s = ""
    · subst hs; decide
    · have hx' : stripStr s ≠ "" := by
        rcases hx with h | h
        · exact absurd h hs
        · exact h
      have hc' : lowerStr (stripStr s) ≠ "" := lowerStr_ne_empty hx'
      have h1 : normalize_category (some s) = classifyCat (lowerStr (stripStr s)) := by
        show (if s = "" then "unknown" else classifyCat (lowerStr (stripStr s))) = _
        rw [if_neg hs]
      rw [h1]
      exact normalize_category_classify_fix _ hc' (preS_idem s)

/-- C9 (amended): `normalize_category` and `normalize_color` are total functions
of any optional string (modelled directly as Lean functions), and both are
idempotent on every input except nonempty whitespace-only strings — there the
first application returns "" and the second turns "" into "unknown". -/
theorem normalize_total_idem (x : Option String) (hx : WsSafe x) :
    normalize_category (some (normalize_category x)) = normalize_category x
    ∧ normalize_color (some (normalize_color x)) = normalize_color x :=
  ⟨normalize_category_ws_idem x hx, normalize_color_ws_idem x hx⟩

/-- C9 witness: idempotence at the concrete input "Sneakers". -/
theorem normalize_total_idem_witness :
    normalize_category (some (normalize_category (some "Sneakers")))
        = normalize_category (some "Sneakers")
    ∧ normalize_color (some (normalize_color (some "Sneakers")))
        = normalize_color (some "Sneakers") :=
  normalize_total_idem (some "Sneakers") (Or.inr (by decide))

end SmartStylist
